import Mathlib

/-!
Formal model of the Nolus ambassador dashboard's harvesting scheduler and
ingestion pipeline, embedded shallowly from the Python sources:

* `app/x_scraper_scheduler.py` — blocking detection, exponential backoff,
  backoff decay, and the per-run processing loop (`XScraperScheduler`);
* `app/db_service.py` — the SQLite-backed ingestion store (`upsert_x_posts`,
  `get_x_posts`, `update_x_post_ambassador`);
* `app/local_data_service.py` — the TTL cache (`_get_cache`, `_set_cache`,
  `clear_cache`) and `add_content`;
* `app/ambassador_service.py` — `update_x_post_metrics`.

Timestamps are modelled as integers (seconds); the sources compare
`datetime`/float timestamps and ISO-8601 strings, both of which order
identically to the integer abstraction.
-/

namespace Dashboard

/-! ## Scheduler state and blocking detector (`x_scraper_scheduler.py`) -/

/-- The mutable fields of `XScraperScheduler` that drive blocking detection
and the per-run counters (`consecutive_failures`, `last_success_time`,
`total_processed`, `total_success`, `total_failed`). -/
structure SchedulerState where
  consecutiveFailures : Nat
  lastSuccessTime : Int
  totalProcessed : Nat
  totalSuccess : Nat
  totalFailed : Nat
  deriving Repr, DecidableEq

/-- `XScraperScheduler._is_blocked`, with `datetime.now()` passed in as
`now` (seconds).  `timedelta(minutes=30)` is 1800 seconds. -/
def isBlocked (s : SchedulerState) (now : Int) (maxConsecutiveFailures : Nat) : Bool :=
  if s.consecutiveFailures ≥ maxConsecutiveFailures then
    true
  else if s.consecutiveFailures ≥ 3 ∧ now - s.lastSuccessTime > 1800 then
    true
  else
    false

/-- `XScraperScheduler._calculate_wait_time`: exponential backoff
`base_wait * 2^(failures // 5)` minutes, capped at `max_wait_hours * 60`
minutes, returned in seconds. -/
def calculateWaitTime (consecutiveFailures baseWaitMinutes maxWaitHours : Nat) : Nat :=
  let exponent := consecutiveFailures / 5
  let waitMinutes := baseWaitMinutes * 2 ^ exponent
  let maxWaitMinutes := maxWaitHours * 60
  let capped := min waitMinutes maxWaitMinutes
  capped * 60

/-- The state change performed at the end of
`XScraperScheduler._wait_for_unblock`:
`self.consecutive_failures = max(0, self.consecutive_failures - 2)`.
(The sleeping itself has no effect on the state.) -/
def waitForUnblock (s : SchedulerState) : SchedulerState :=
  { s with consecutiveFailures := max 0 (s.consecutiveFailures - 2) }

/-! ## Ingestion store (`db_service.py`) -/

/-- One row of the `x_posts` table (`db_service.py` schema), with the two
TEXT timestamp columns and `last_updated` abstracted to integer seconds
(ISO-8601 strings compare in the same order). -/
structure XPostRow where
  ambassador : String
  tweet_url : String
  tweet_id : String
  impressions : Int
  likes : Int
  retweets : Int
  replies : Int
  date_posted : Int
  submitted_date : Int
  month : String
  year : Int
  last_updated : Int
  deriving Repr, DecidableEq

/-- One step of `DatabaseService.upsert_x_posts`: the
`INSERT ... ON CONFLICT(tweet_id) DO UPDATE` statement for a single post.
On conflict only `impressions`, `likes`, `retweets`, `replies` and
`last_updated = CURRENT_TIMESTAMP` are set; otherwise the row is inserted
(its `last_updated` defaulting to `CURRENT_TIMESTAMP`, here `now`). -/
def upsertXPost (table : List XPostRow) (p : XPostRow) (now : Int) : List XPostRow :=
  if table.any (fun r => r.tweet_id = p.tweet_id) then
    table.map (fun r =>
      if r.tweet_id = p.tweet_id then
        { r with
          impressions := p.impressions
          likes := p.likes
          retweets := p.retweets
          replies := p.replies
          last_updated := now }
      else r)
  else
    table ++ [{ p with last_updated := now }]

/-- `DatabaseService.upsert_x_posts`: the per-post statement applied in
order over the batch. -/
def upsertXPosts (table : List XPostRow) (posts : List XPostRow) (now : Int) : List XPostRow :=
  posts.foldl (fun t p => upsertXPost t p now) table

/-- Number of stored rows carrying a given `tweet_id`. -/
def countId (table : List XPostRow) (tid : String) : Nat :=
  (table.filter (fun r => r.tweet_id = tid)).length

/-- Descending order on `date_posted` — the `ORDER BY date_posted DESC` of
`DatabaseService.get_x_posts`. -/
def xPostByDateDesc (a b : XPostRow) : Prop :=
  b.date_posted ≤ a.date_posted

instance : DecidableRel xPostByDateDesc := fun a b =>
  inferInstanceAs (Decidable (b.date_posted ≤ a.date_posted))

instance : IsTotal XPostRow xPostByDateDesc :=
  ⟨fun a b => Int.le_total b.date_posted a.date_posted⟩

instance : IsTrans XPostRow xPostByDateDesc :=
  ⟨fun _ _ _ h1 h2 => le_trans h2 h1⟩

/-- `DatabaseService.get_x_posts`: all rows, filtered to a `(month, year)`
period when one is supplied, ordered by `date_posted` descending. -/
def getXPosts (table : List XPostRow) (period : Option (String × Int)) : List XPostRow :=
  let rows := match period with
    | some (m, y) => table.filter (fun (r : XPostRow) => r.month = m ∧ r.year = y)
    | none => table
  rows.insertionSort xPostByDateDesc

/-! ## Aggregate cache (`local_data_service.py`) -/

/-- The `LocalDataService._cache` dict: key ↦ (value, timestamp), modelled
as an association list. -/
abbrev Cache (α : Type) : Type := List (String × α × Int)

/-- Removal of a key (`del self._cache[key]` / dict overwrite). -/
def cacheEraseKey (c : Cache α) (k : String) : Cache α :=
  c.filter (fun e => ¬ e.1 = k)

/-- `LocalDataService._set_cache`: store the value under the key with the
current timestamp. -/
def setCache (c : Cache α) (k : String) (v : α) (now : Int) : Cache α :=
  (k, v, now) :: cacheEraseKey c k

/-- `LocalDataService._get_cache`: on a hit within `ttl` return the value;
on an expired entry delete it and return `none`; otherwise `none`.  Returns
the resulting cache alongside the value. -/
def getCache (c : Cache α) (k : String) (now ttl : Int) : Option α × Cache α :=
  match c.find? (fun e => e.1 = k) with
  | some (_, v, ts) => if now - ts < ttl then (some v, c) else (none, cacheEraseKey c k)
  | none => (none, c)

/-- `LocalDataService.clear_cache`. -/
def clearCache (_ : Cache α) : Cache α := []

/-! ## Orchestrator loop (`x_scraper_scheduler.py`) -/

/-- Outcome of one extraction attempt, as discriminated by
`_scrape_single_tweet`: the scraper returned metrics (and the subsequent
store write succeeded or failed), the scraper returned no metrics, or an
exception was raised during scraping. -/
inductive ScrapeOutcome where
  | metricsOk (updateOk : Bool)
  | scrapeFail
  | exn
  deriving Repr, DecidableEq

/-- One work item of the loop in `process_current_month_tweets`:
whether its `Tweet_URL` is non-empty, the extraction outcome, the clock
reading at the pre-item blocking check, and the clock reading during
processing. -/
structure WorkItem where
  urlPresent : Bool
  outcome : ScrapeOutcome
  checkNow : Int
  now : Int
  deriving Repr, DecidableEq

/-- `XScraperScheduler._scrape_single_tweet`: returns the success flag and
the new state.  A missing URL and a failed store write change no counters;
a successful write resets `consecutiveFailures`, stamps `lastSuccessTime`
and increments `totalSuccess`; a failed or throwing extraction increments
`consecutiveFailures`. -/
def scrapeSingleTweet (s : SchedulerState) (item : WorkItem) : Bool × SchedulerState :=
  if ¬ item.urlPresent then (false, s)
  else
    match item.outcome with
    | .metricsOk true =>
        (true, { s with
          consecutiveFailures := 0
          lastSuccessTime := item.now
          totalSuccess := s.totalSuccess + 1 })
    | .metricsOk false => (false, s)
    | .scrapeFail => (false, { s with consecutiveFailures := s.consecutiveFailures + 1 })
    | .exn => (false, { s with consecutiveFailures := s.consecutiveFailures + 1 })

/-- One iteration of the loop in `process_current_month_tweets`: a blocking
check (with backoff decay when blocked), the single-tweet scrape, then
`total_processed += 1` and `total_failed += 1` on failure.  The sleeps have
no state effect. -/
def processItem (maxFail : Nat) (s : SchedulerState) (item : WorkItem) : SchedulerState :=
  let s1 := if isBlocked s item.checkNow maxFail then waitForUnblock s else s
  let r := scrapeSingleTweet s1 item
  let s2 := { r.2 with totalProcessed := r.2.totalProcessed + 1 }
  if r.1 then s2 else { s2 with totalFailed := s2.totalFailed + 1 }

/-- The statistics dictionary returned by `process_current_month_tweets`. -/
structure RunResult where
  total : Nat
  success : Nat
  failed : Nat
  blocked : Bool
  deriving Repr, DecidableEq

/-- `XScraperScheduler.process_current_month_tweets`: on an empty work set
it returns the zero statistics (with `blocked := false`) at once, consuming
no extraction outcome; otherwise it resets the run counters, folds the loop
body over the items, and reports the counters together with the blocking
verdict recomputed at return time (`endNow`). -/
def processCurrentMonthTweets (maxFail : Nat) (s : SchedulerState)
    (items : List WorkItem) (endNow : Int) : RunResult × SchedulerState :=
  match items with
  | [] => ({ total := 0, success := 0, failed := 0, blocked := false }, s)
  | _ :: _ =>
    let s0 := { s with totalProcessed := 0, totalSuccess := 0, totalFailed := 0 }
    let sf := items.foldl (processItem maxFail) s0
    ({ total := sf.totalProcessed
       success := sf.totalSuccess
       failed := sf.totalFailed
       blocked := isBlocked sf endNow maxFail }, sf)

/-! ## Metrics ingestion path (`ambassador_service.py`, `db_service.py`) -/

/-- The metrics dictionary handed to `update_x_post_metrics`
(`metrics.get(key, default)` is modelled by `Option.getD`). -/
structure Metrics where
  impressions : Option Int
  likes : Option Int
  retweets : Option Int
  replies : Option Int
  date_posted : Option Int
  author_handle : Option String
  ambassador : Option String
  deriving Repr, DecidableEq

/-- `re.search(r'/status/(\d+)', url)`: the digit run after the leftmost
occurrence of `/status/` that is followed by at least one digit. -/
def findStatusId : List Char → Option String
  | [] => none
  | c :: rest =>
    if (c :: rest).take 8 = "/status/".data then
      let after := (c :: rest).drop 8
      match after.head? with
      | some d =>
        if d.isDigit then some ⟨after.takeWhile (fun ch => ch.isDigit)⟩
        else findStatusId rest
      | none => findStatusId rest
    else findStatusId rest

/-- Tweet-id extraction in `AmbassadorService.update_x_post_metrics`. -/
def extractTweetId (url : String) : Option String :=
  findStatusId url.data

/-- `DatabaseService.update_x_post_ambassador`: set `ambassador` and
`last_updated` on every row for the tweet id (at most one in a well-formed
store). -/
def updateXPostAmbassador (table : List XPostRow) (tid amb : String) (now : Int) :
    List XPostRow :=
  table.map (fun r =>
    if r.tweet_id = tid then { r with ambassador := amb, last_updated := now } else r)

/-- `AmbassadorService.update_x_post_metrics`.  `resolveHandle` stands for
`config.get_ambassador_by_x_handle` (a lookup in `config.json`, which is
data, not code).  `now`/`month`/`year` are the `datetime.now()` readings. -/
def updateXPostMetrics (resolveHandle : String → Option String)
    (table : List XPostRow) (tweet_url : String) (m : Metrics)
    (now : Int) (month : String) (year : Int) : (Bool × String) × List XPostRow :=
  if tweet_url = "" ∨ tweet_url.length > 2048 then
    ((false, "Invalid or too long URL"), table)
  else
    match extractTweetId tweet_url with
    | none => ((false, "Could not extract tweet ID from URL"), table)
    | some tid =>
      let table1 :=
        match m.author_handle with
        | some h =>
          if h ≠ "" then
            match resolveHandle h with
            | some amb => updateXPostAmbassador table tid amb now
            | none => table
          else table
        | none => table
      let post : XPostRow :=
        { ambassador := m.ambassador.getD "Unknown"
          tweet_url := tweet_url
          tweet_id := tid
          impressions := m.impressions.getD 0
          likes := m.likes.getD 0
          retweets := m.retweets.getD 0
          replies := m.replies.getD 0
          date_posted := m.date_posted.getD now
          submitted_date := now
          month := month
          year := year
          -- the input dict has no last_updated; the column is stamped by
          -- the upsert itself
          last_updated := 0 }
      ((true, "Updated metrics for tweet " ++ tid), upsertXPosts table1 [post] now)

/-! ## Content submission (`local_data_service.add_content`) -/

/-- One row of the `reddit_posts` table (`db_service.py` schema). -/
structure RedditRow where
  ambassador : String
  url : String
  post_id : String
  score : Int
  comments : Int
  views : Int
  date_posted : Int
  submitted_date : Int
  month : String
  year : Int
  last_updated : Int
  deriving Repr, DecidableEq

/-- One step of `DatabaseService.upsert_reddit_posts`
(`ON CONFLICT(post_id) DO UPDATE` of `score`, `comments`, `views`,
`last_updated`). -/
def upsertRedditPost (table : List RedditRow) (p : RedditRow) (now : Int) : List RedditRow :=
  if table.any (fun r => r.post_id = p.post_id) then
    table.map (fun r =>
      if r.post_id = p.post_id then
        { r with
          score := p.score
          comments := p.comments
          views := p.views
          last_updated := now }
      else r)
  else
    table ++ [{ p with last_updated := now }]

/-- `\w` of Python `re` (ASCII model). -/
def isWordChar (c : Char) : Bool :=
  c.isAlphanum || c = '_'

/-- Match `(?:twitter\.com|x\.com)/\w+/status/(\d+)` at the head of the
list for one concrete domain prefix (domain including the following `/`):
a non-empty word run, then `/status/`, then a digit run.  Because `\w`
never matches `/`, the greedy word run is forced, so this is exactly the
regex's behaviour at one position. -/
def matchXDomainAt (domain l : List Char) : Option String :=
  if l.take domain.length = domain then
    let rest := l.drop domain.length
    let w := rest.takeWhile isWordChar
    if w = [] then none
    else
      let rest2 := rest.drop w.length
      if rest2.take 8 = "/status/".data then
        let after := rest2.drop 8
        match after.head? with
        | some d =>
          if d.isDigit then some ⟨after.takeWhile (fun ch => ch.isDigit)⟩ else none
        | none => none
      else none
  else none

/-- `re.search` of the X/Twitter URL pattern of `add_content`: leftmost
position at which either domain alternative matches. -/
def findXPostId : List Char → Option String
  | [] => none
  | c :: rest =>
    match matchXDomainAt "twitter.com/".data (c :: rest) with
    | some tid => some tid
    | none =>
      match matchXDomainAt "x.com/".data (c :: rest) with
      | some tid => some tid
      | none => findXPostId rest

/-- Match `reddit\.com/r/\w+/comments/(\w+)` at the head of the list. -/
def matchReddit1At (l : List Char) : Option String :=
  if l.take 13 = "reddit.com/r/".data then
    let rest := l.drop 13
    let w := rest.takeWhile isWordChar
    if w = [] then none
    else
      let rest2 := rest.drop w.length
      if rest2.take 10 = "/comments/".data then
        let w2 := (rest2.drop 10).takeWhile isWordChar
        if w2 = [] then none else some ⟨w2⟩
      else none
  else none

/-- `re.search` of the first Reddit pattern. -/
def findReddit1 : List Char → Option String
  | [] => none
  | c :: rest =>
    match matchReddit1At (c :: rest) with
    | some pid => some pid
    | none => findReddit1 rest

/-- Match `redd\.it/(\w+)` at the head of the list. -/
def matchReddit2At (l : List Char) : Option String :=
  if l.take 8 = "redd.it/".data then
    let w := (l.drop 8).takeWhile isWordChar
    if w = [] then none else some ⟨w⟩
  else none

/-- `re.search` of the second Reddit pattern. -/
def findReddit2 : List Char → Option String
  | [] => none
  | c :: rest =>
    match matchReddit2At (c :: rest) with
    | some pid => some pid
    | none => findReddit2 rest

/-- The Reddit patterns are tried in order over the whole URL. -/
def findRedditPostId (l : List Char) : Option String :=
  match findReddit1 l with
  | some pid => some pid
  | none => findReddit2 l

/-- The SQLite tables owned by `DatabaseService`. -/
structure DB where
  xPosts : List XPostRow
  redditPosts : List RedditRow
  deriving Repr, DecidableEq

/-- `LocalDataService.add_content`: validate the URL, parse it as an X or
Reddit post, insert a zero-count row for the current month, and clear the
whole cache on success. -/
def addContent (db : DB) (cache : Cache α) (ambassador content_url : String)
    (now : Int) (month : String) (year : Int) : (Bool × String) × DB × Cache α :=
  -- content_url.startswith('http') is the 4-character prefix test
  if content_url = "" ∨ ¬ content_url.data.take 4 = "http".data then
    ((false, "Invalid URL provided"), db, cache)
  else
    match findXPostId content_url.data with
    | some tid =>
      let post : XPostRow :=
        { ambassador := ambassador, tweet_url := content_url, tweet_id := tid
          impressions := 0, likes := 0, retweets := 0, replies := 0
          date_posted := now, submitted_date := now
          month := month, year := year, last_updated := 0 }
      ((true, "Successfully added X content for " ++ ambassador),
        { db with xPosts := upsertXPosts db.xPosts [post] now }, clearCache cache)
    | none =>
      match findRedditPostId content_url.data with
      | some pid =>
        let post : RedditRow :=
          { ambassador := ambassador, url := content_url, post_id := pid
            score := 0, comments := 0, views := 0
            date_posted := now, submitted_date := now
            month := month, year := year, last_updated := 0 }
        ((true, "Successfully added Reddit content for " ++ ambassador),
          { db with redditPosts := upsertRedditPost db.redditPosts post now },
          clearCache cache)
      | none =>
        ((false, "Could not parse URL. Please provide a valid X or Reddit post URL."),
          db, cache)

/-- The state shared by the ingestion paths: the database plus the
aggregate cache held by `LocalDataService`. -/
structure SysState (α : Type) where
  db : DB
  cache : Cache α
  deriving Repr, DecidableEq

/-- The metrics-update ingestion step at system level.  Both callers of
`update_x_post_metrics` (`XScraperScheduler._scrape_single_tweet` and the
Discord bot's scrape task) go through `AmbassadorService`, which holds only
a `DatabaseService` and no reference to any cache, so the aggregate cache
is carried through untouched. -/
def sysUpdateXPostMetrics (resolveHandle : String → Option String)
    (sys : SysState α) (tweet_url : String) (m : Metrics)
    (now : Int) (month : String) (year : Int) : (Bool × String) × SysState α :=
  let r := updateXPostMetrics resolveHandle sys.db.xPosts tweet_url m now month year
  (r.1, { db := { sys.db with xPosts := r.2 }, cache := sys.cache })

end Dashboard

/-! ## C2 — blocking detector verdict -/

/-- C2: for every `SchedulerState`, `isBlocked` is true iff
`consecutiveFailures ≥ maxConsecutiveFailures` or `consecutiveFailures ≥ 3`
and more than 30 minutes elapsed since `lastSuccessTime`; in particular with
3 failures and the last success 31 minutes (1860 s) in the past it is true,
and with the last success 10 minutes (600 s) in the past it is false
(default `maxConsecutiveFailures = 5`). -/
theorem c2_isBlocked_iff :
    (∀ (s : Dashboard.SchedulerState) (now : Int) (maxFail : Nat),
      Dashboard.isBlocked s now maxFail = true ↔
        (maxFail ≤ s.consecutiveFailures ∨
          (3 ≤ s.consecutiveFailures ∧ 1800 < now - s.lastSuccessTime))) ∧
    Dashboard.isBlocked ⟨3, 0, 0, 0, 0⟩ 1860 5 = true ∧
    Dashboard.isBlocked ⟨3, 0, 0, 0, 0⟩ 600 5 = false := by
  refine ⟨fun s now maxFail => ?_, by decide, by decide⟩
  unfold Dashboard.isBlocked
  split
  · simp_all
  · split
    · simp_all
    · simp_all

/-- Witness for C2 at a concrete input: 4 failures with threshold 4. -/
theorem c2_isBlocked_iff_witness :
    Dashboard.isBlocked ⟨4, 0, 0, 0, 0⟩ 0 4 = true :=
  (c2_isBlocked_iff.1 ⟨4, 0, 0, 0, 0⟩ 0 4).mpr (Or.inl (by decide))

/-! ## C3 — backoff formula and cap -/

/-- C3: the backoff wait in seconds equals
`min(baseWaitMinutes * 2^(consecutiveFailures / 5), maxWaitHours * 60) * 60`;
with 30 failures, base 30 minutes and cap 8 hours the wait is the capped
480 minutes = 28800 seconds, not the uncapped exponential. -/
theorem c3_calculateWaitTime_formula :
    (∀ n b h : Nat,
      Dashboard.calculateWaitTime n b h = min (b * 2 ^ (n / 5)) (h * 60) * 60) ∧
    Dashboard.calculateWaitTime 30 30 8 = 28800 ∧
    Dashboard.calculateWaitTime 30 30 8 ≠ 30 * 2 ^ (30 / 5) * 60 := by
  refine ⟨fun n b h => rfl, by decide, by decide⟩

/-! ## C4 — backoff decay -/

/-- C4: after a backoff wait completes, `consecutiveFailures` equals
`max(0, n - 2)`: it decreases by exactly 2 when it was at least 2, and is
floored at 0 otherwise (never below 0). -/
theorem c4_waitForUnblock_decay :
    (∀ s : Dashboard.SchedulerState,
      (Dashboard.waitForUnblock s).consecutiveFailures =
        max 0 (s.consecutiveFailures - 2)) ∧
    (∀ s : Dashboard.SchedulerState, 2 ≤ s.consecutiveFailures →
      (Dashboard.waitForUnblock s).consecutiveFailures + 2 = s.consecutiveFailures) ∧
    (∀ s : Dashboard.SchedulerState, s.consecutiveFailures < 2 →
      (Dashboard.waitForUnblock s).consecutiveFailures = 0) := by
  refine ⟨fun s => rfl, fun s h => ?_, fun s h => ?_⟩
  · simp [Dashboard.waitForUnblock]
    omega
  · simp [Dashboard.waitForUnblock]
    omega

/-- Witness for C4 at a concrete input: 5 failures decay to 3. -/
theorem c4_waitForUnblock_decay_witness :
    (Dashboard.waitForUnblock ⟨5, 0, 0, 0, 0⟩).consecutiveFailures + 2 = 5 :=
  c4_waitForUnblock_decay.2.1 ⟨5, 0, 0, 0, 0⟩ (by decide)

/-! ## C5 — idempotent upsert -/

/-- An upsert against a table that has no row for the post's `tweet_id`
appends a fresh row (whose `last_updated` is the write time). -/
theorem upsertXPost_fresh (table : List Dashboard.XPostRow) (p : Dashboard.XPostRow)
    (now : Int) (h : ∀ r ∈ table, r.tweet_id ≠ p.tweet_id) :
    Dashboard.upsertXPost table p now = table ++ [{ p with last_updated := now }] := by
  have hany : table.any (fun r => r.tweet_id = p.tweet_id) = false := by
    simp only [List.any_eq_false, decide_eq_true_eq]
    exact h
  simp [Dashboard.upsertXPost, hany]

/-- An upsert leaves the number of rows for its `tweet_id` at
`max (previous count) 1`. -/
theorem countId_upsertXPost (table : List Dashboard.XPostRow) (p : Dashboard.XPostRow)
    (now : Int) :
    Dashboard.countId (Dashboard.upsertXPost table p now) p.tweet_id =
      max (Dashboard.countId table p.tweet_id) 1 := by
  unfold Dashboard.upsertXPost Dashboard.countId
  split
  case isTrue hmem =>
    rw [List.filter_map]
    have hcong :
        table.filter ((fun (r : Dashboard.XPostRow) => decide (r.tweet_id = p.tweet_id)) ∘
          (fun r =>
            if r.tweet_id = p.tweet_id then
              { r with
                impressions := p.impressions
                likes := p.likes
                retweets := p.retweets
                replies := p.replies
                last_updated := now }
            else r)) =
        table.filter (fun (r : Dashboard.XPostRow) => decide (r.tweet_id = p.tweet_id)) := by
      apply List.filter_congr
      intro r _
      by_cases hr : r.tweet_id = p.tweet_id <;> simp [hr]
    rw [hcong, List.length_map]
    have hpos : 0 < (table.filter (fun (r : Dashboard.XPostRow) =>
        decide (r.tweet_id = p.tweet_id))).length := by
      rw [List.any_eq_true] at hmem
      obtain ⟨r, hr, hid⟩ := hmem
      rw [decide_eq_true_eq] at hid
      have : r ∈ table.filter (fun (r : Dashboard.XPostRow) =>
          decide (r.tweet_id = p.tweet_id)) :=
        List.mem_filter.mpr ⟨hr, by simp [hid]⟩
      exact List.length_pos.mpr (List.ne_nil_of_mem this)
    omega
  case isFalse hmem =>
    rw [List.filter_append]
    have hnil : table.filter (fun (r : Dashboard.XPostRow) =>
        decide (r.tweet_id = p.tweet_id)) = [] := by
      rw [List.filter_eq_nil_iff]
      intro r hr
      rw [Bool.not_eq_true, List.any_eq_false] at hmem
      exact hmem r hr
    simp [hnil]

/-- C5: with the store's uniqueness invariant (at most one row per
`tweet_id`), two upserts with the same `tweet_id` leave exactly one row for
it; and when the id is new to the store, that row carries the second
upsert's counts and the first upsert's identity fields (`ambassador`,
`tweet_url`, `tweet_id`, `month`, `year`) and dates. -/
theorem c5_upsert_idempotent :
    (∀ (table : List Dashboard.XPostRow) (p1 p2 : Dashboard.XPostRow) (now1 now2 : Int),
      p1.tweet_id = p2.tweet_id →
      Dashboard.countId table p1.tweet_id ≤ 1 →
      Dashboard.countId
        (Dashboard.upsertXPost (Dashboard.upsertXPost table p1 now1) p2 now2)
        p1.tweet_id = 1) ∧
    (∀ (table : List Dashboard.XPostRow) (p1 p2 : Dashboard.XPostRow) (now1 now2 : Int),
      p1.tweet_id = p2.tweet_id →
      (∀ r ∈ table, r.tweet_id ≠ p1.tweet_id) →
      (Dashboard.upsertXPost (Dashboard.upsertXPost table p1 now1) p2 now2).filter
          (fun r => r.tweet_id = p1.tweet_id) =
        [{ p1 with
            impressions := p2.impressions
            likes := p2.likes
            retweets := p2.retweets
            replies := p2.replies
            last_updated := now2 }]) := by
  constructor
  · intro table p1 p2 now1 now2 hid hle
    have h1 := countId_upsertXPost table p1 now1
    have h2 := countId_upsertXPost (Dashboard.upsertXPost table p1 now1) p2 now2
    rw [hid, h2, ← hid, h1, Nat.max_eq_right hle]
    exact Nat.max_self 1
  · intro table p1 p2 now1 now2 hid hfresh
    rw [upsertXPost_fresh table p1 now1 hfresh]
    have hany : ((table ++ [{ p1 with last_updated := now1 }]).any
        (fun r => r.tweet_id = p2.tweet_id)) = true := by
      rw [List.any_eq_true]
      exact ⟨{ p1 with last_updated := now1 }, by simp, by simp [hid]⟩
    simp only [Dashboard.upsertXPost, hany, if_true]
    rw [List.map_append, List.filter_append]
    have hL : ((table.map (fun r =>
        if r.tweet_id = p2.tweet_id then
          { r with
            impressions := p2.impressions
            likes := p2.likes
            retweets := p2.retweets
            replies := p2.replies
            last_updated := now2 }
        else r)).filter (fun r => r.tweet_id = p1.tweet_id)) = [] := by
      rw [List.filter_eq_nil_iff]
      intro a ha
      rw [List.mem_map] at ha
      obtain ⟨r, hr, rfl⟩ := ha
      have hne := hfresh r hr
      rw [if_neg (hid ▸ hne)]
      simp [hne]
    rw [hL]
    simp [hid]

/-- Witness for C5 at a concrete input: empty store, two upserts of
tweet id `"42"`. -/
theorem c5_upsert_idempotent_witness :
    Dashboard.countId
      (Dashboard.upsertXPost
        (Dashboard.upsertXPost []
          ⟨"A", "u", "42", 1, 2, 3, 4, 5, 6, "Jan", 2025, 0⟩ 10)
        ⟨"B", "v", "42", 7, 8, 9, 1, 2, 3, "Feb", 2026, 0⟩ 20) "42" = 1 :=
  c5_upsert_idempotent.1 []
    ⟨"A", "u", "42", 1, 2, 3, 4, 5, 6, "Jan", 2025, 0⟩
    ⟨"B", "v", "42", 7, 8, 9, 1, 2, 3, "Feb", 2026, 0⟩ 10 20 rfl (by decide)

/-! ## C6 — cache TTL -/

/-- C6: a value set at time `t` is returned by a get at `t'` when
`t' - t < ttl` (cache untouched), and is absent at `t' - t ≥ ttl`, the
expired entry being deleted; in particular with `ttl = 300` a value set at
0 is retrievable at 299 and absent at 301. -/
theorem c6_cache_ttl :
    (∀ (α : Type) (c : Dashboard.Cache α) (k : String) (v : α) (t tNow ttl : Int),
      tNow - t < ttl →
      Dashboard.getCache (Dashboard.setCache c k v t) k tNow ttl =
        (some v, Dashboard.setCache c k v t)) ∧
    (∀ (α : Type) (c : Dashboard.Cache α) (k : String) (v : α) (t tNow ttl : Int),
      ttl ≤ tNow - t →
      (Dashboard.getCache (Dashboard.setCache c k v t) k tNow ttl).1 = none ∧
      ((Dashboard.getCache (Dashboard.setCache c k v t) k tNow ttl).2.find?
        (fun e => e.1 = k)) = none) ∧
    (Dashboard.getCache (Dashboard.setCache ([] : Dashboard.Cache Nat) "k" 7 0)
        "k" 299 300).1 = some 7 ∧
    (Dashboard.getCache (Dashboard.setCache ([] : Dashboard.Cache Nat) "k" 7 0)
        "k" 301 300).1 = none := by
  refine ⟨?_, ?_, by decide, by decide⟩
  · intro α c k v t tNow ttl h
    simp [Dashboard.getCache, Dashboard.setCache, List.find?, h]
  · intro α c k v t tNow ttl h
    have hlt : ¬ (tNow - t < ttl) := not_lt.mpr h
    have hmain : Dashboard.getCache (Dashboard.setCache c k v t) k tNow ttl =
        (none, Dashboard.cacheEraseKey (Dashboard.setCache c k v t) k) := by
      simp [Dashboard.getCache, Dashboard.setCache, Dashboard.cacheEraseKey,
        List.find?, hlt]
    rw [hmain]
    refine ⟨rfl, ?_⟩
    rw [List.find?_eq_none]
    intro e he
    simp only [Dashboard.cacheEraseKey] at he
    obtain ⟨-, hne⟩ := List.mem_filter.mp he
    simpa using hne

/-- Witness for C6 at a concrete input: ttl 300, set at 0, read at 299. -/
theorem c6_cache_ttl_witness :
    Dashboard.getCache (Dashboard.setCache ([] : Dashboard.Cache Nat) "k" 7 0)
        "k" 299 300 =
      (some 7, Dashboard.setCache ([] : Dashboard.Cache Nat) "k" 7 0) :=
  c6_cache_ttl.1 Nat [] "k" 7 0 299 300 (by decide)

/-! ## C9 — query ordering

`get_x_posts` sorts by `date_posted DESC`.  `date_posted` holds the post's
original posting timestamp (the spec's `originalPostedAt`): it is written
once at insert and never changed by the metrics upsert, whereas the
observation timestamps (`submitted_date`, `last_updated`) are separate
columns.  The query is therefore NOT ordered by observation time. -/

/-- C9 counterexample: a store with two rows whose `date_posted` order is
the reverse of both their `submitted_date` and their `last_updated` order.
The query result is not sorted descending by either observation timestamp,
refuting "ordered by observedAt descending". -/
theorem c9_counterexample :
    ¬ ((Dashboard.getXPosts
          [⟨"A", "u1", "1", 0, 0, 0, 0, 5, 1, "Jan", 2025, 1⟩,
           ⟨"B", "u2", "2", 0, 0, 0, 0, 3, 2, "Jan", 2025, 2⟩] none).Pairwise
        (fun a b => b.submitted_date ≤ a.submitted_date)) ∧
    ¬ ((Dashboard.getXPosts
          [⟨"A", "u1", "1", 0, 0, 0, 0, 5, 1, "Jan", 2025, 1⟩,
           ⟨"B", "u2", "2", 0, 0, 0, 0, 3, 2, "Jan", 2025, 2⟩] none).Pairwise
        (fun a b => b.last_updated ≤ a.last_updated)) := by
  decide

/-- C9 (amended): the query returns exactly the stored records, restricted
to the given `(month, year)` period when one is supplied, ordered by
`date_posted` (the original posting timestamp, the spec's
`originalPostedAt`) descending — not by the observation timestamp. -/
theorem c9_query_order :
    (∀ table : List Dashboard.XPostRow,
      (Dashboard.getXPosts table none).Perm table ∧
      List.Sorted Dashboard.xPostByDateDesc (Dashboard.getXPosts table none)) ∧
    (∀ (table : List Dashboard.XPostRow) (m : String) (y : Int),
      (Dashboard.getXPosts table (some (m, y))).Perm
        (table.filter (fun (r : Dashboard.XPostRow) => r.month = m ∧ r.year = y)) ∧
      List.Sorted Dashboard.xPostByDateDesc (Dashboard.getXPosts table (some (m, y)))) := by
  constructor
  · intro table
    exact ⟨List.perm_insertionSort _ _, List.sorted_insertionSort _ _⟩
  · intro table m y
    exact ⟨List.perm_insertionSort _ _, List.sorted_insertionSort _ _⟩

/-! ## C7 — loop counters under arbitrary per-item outcomes -/

/-- One loop iteration always increments `totalProcessed` by one and
increments exactly one of `totalSuccess`/`totalFailed`, whatever the
extraction outcome and blocking state. -/
theorem processItem_counters (mf : Nat) (s : Dashboard.SchedulerState)
    (it : Dashboard.WorkItem) :
    (Dashboard.processItem mf s it).totalProcessed = s.totalProcessed + 1 ∧
    (Dashboard.processItem mf s it).totalSuccess +
        (Dashboard.processItem mf s it).totalFailed
      = s.totalSuccess + s.totalFailed + 1 := by
  rcases it with ⟨u, o, cn, n⟩
  unfold Dashboard.processItem Dashboard.scrapeSingleTweet
  cases u <;> rcases o with b | _ | _ <;> try cases b
  all_goals
    split <;> simp [Dashboard.waitForUnblock] <;> omega

/-- Folding the loop body adds the item count to `totalProcessed` and to
`totalSuccess + totalFailed`. -/
theorem foldl_processItem_counters (mf : Nat) :
    ∀ (items : List Dashboard.WorkItem) (s : Dashboard.SchedulerState),
      (items.foldl (Dashboard.processItem mf) s).totalProcessed
          = s.totalProcessed + items.length ∧
      (items.foldl (Dashboard.processItem mf) s).totalSuccess +
          (items.foldl (Dashboard.processItem mf) s).totalFailed
        = s.totalSuccess + s.totalFailed + items.length := by
  intro items
  induction items with
  | nil => intro s; simp
  | cons it rest ih =>
    intro s
    simp only [List.foldl_cons, List.length_cons]
    obtain ⟨h1, h2⟩ := ih (Dashboard.processItem mf s it)
    obtain ⟨g1, g2⟩ := processItem_counters mf s it
    constructor <;> omega

/-- C7: on a non-empty work set the run processes every item — no per-item
extraction or store-write failure aborts the loop — and the returned
counters satisfy `total = number of items` and
`total = success + failed`.  (The loop body is a total function of the
outcome, so partial failure can never raise.) -/
theorem c7_runOnce_counters :
    ∀ (maxFail : Nat) (s : Dashboard.SchedulerState)
      (items : List Dashboard.WorkItem) (endNow : Int), items ≠ [] →
      (Dashboard.processCurrentMonthTweets maxFail s items endNow).1.total
          = items.length ∧
      (Dashboard.processCurrentMonthTweets maxFail s items endNow).1.total =
        (Dashboard.processCurrentMonthTweets maxFail s items endNow).1.success +
          (Dashboard.processCurrentMonthTweets maxFail s items endNow).1.failed := by
  intro mf s items endNow hne
  cases items with
  | nil => exact absurd rfl hne
  | cons a l =>
    obtain ⟨h1, h2⟩ := foldl_processItem_counters mf (a :: l)
      { s with totalProcessed := 0, totalSuccess := 0, totalFailed := 0 }
    simp only [Dashboard.processCurrentMonthTweets] at h1 h2 ⊢
    simp only [List.length_cons] at h1 h2
    constructor <;> simp_all

/-- Witness for C7: two items, one success and one blocking-class
failure. -/
theorem c7_runOnce_counters_witness :
    (Dashboard.processCurrentMonthTweets 5 ⟨0, 0, 0, 0, 0⟩
        [⟨true, .metricsOk true, 0, 0⟩, ⟨true, .scrapeFail, 0, 0⟩] 0).1.total = 2 ∧
    (Dashboard.processCurrentMonthTweets 5 ⟨0, 0, 0, 0, 0⟩
        [⟨true, .metricsOk true, 0, 0⟩, ⟨true, .scrapeFail, 0, 0⟩] 0).1.total =
      (Dashboard.processCurrentMonthTweets 5 ⟨0, 0, 0, 0, 0⟩
          [⟨true, .metricsOk true, 0, 0⟩, ⟨true, .scrapeFail, 0, 0⟩] 0).1.success +
        (Dashboard.processCurrentMonthTweets 5 ⟨0, 0, 0, 0, 0⟩
            [⟨true, .metricsOk true, 0, 0⟩, ⟨true, .scrapeFail, 0, 0⟩] 0).1.failed :=
  c7_runOnce_counters 5 ⟨0, 0, 0, 0, 0⟩
    [⟨true, .metricsOk true, 0, 0⟩, ⟨true, .scrapeFail, 0, 0⟩] 0 (by decide)

/-! ## C8 — empty work set and the returned blocking verdict -/

/-- C8 counterexample: with 5 consecutive failures carried over from a
previous run and an empty work set, the run returns `blocked = false`
although the Blocking Detector's verdict at return time is `true` — the
empty-set branch returns the constant `False`, not `_is_blocked()`. -/
theorem c8_counterexample :
    (Dashboard.processCurrentMonthTweets 5 ⟨5, 0, 0, 0, 0⟩ [] 0).1.blocked = false ∧
    Dashboard.isBlocked ⟨5, 0, 0, 0, 0⟩ 0 5 = true := by
  decide

/-- C8 (amended): an empty work set yields the zero-stat result
immediately — state untouched, no extraction outcome consumed, and
`blocked` the constant `false` — while on a non-empty work set the
returned `blocked` field equals the detector's verdict on the final state
at return time. -/
theorem c8_empty_run_and_verdict :
    (∀ (mf : Nat) (s : Dashboard.SchedulerState) (endNow : Int),
      Dashboard.processCurrentMonthTweets mf s [] endNow = (⟨0, 0, 0, false⟩, s)) ∧
    (∀ (mf : Nat) (s : Dashboard.SchedulerState)
        (items : List Dashboard.WorkItem) (endNow : Int), items ≠ [] →
      (Dashboard.processCurrentMonthTweets mf s items endNow).1.blocked =
        Dashboard.isBlocked
          (Dashboard.processCurrentMonthTweets mf s items endNow).2 endNow mf) := by
  constructor
  · intro mf s endNow
    rfl
  · intro mf s items endNow hne
    cases items with
    | nil => exact absurd rfl hne
    | cons a l => rfl

/-- Witness for C8 (amended) at a concrete non-empty work set. -/
theorem c8_empty_run_and_verdict_witness :
    (Dashboard.processCurrentMonthTweets 5 ⟨0, 0, 0, 0, 0⟩
        [⟨true, .scrapeFail, 0, 0⟩] 0).1.blocked =
      Dashboard.isBlocked
        (Dashboard.processCurrentMonthTweets 5 ⟨0, 0, 0, 0, 0⟩
          [⟨true, .scrapeFail, 0, 0⟩] 0).2 0 5 :=
  c8_empty_run_and_verdict.2 5 ⟨0, 0, 0, 0, 0⟩ [⟨true, .scrapeFail, 0, 0⟩] 0 (by decide)

/-! ## C10 — metrics-update URL validation -/

/-- C10: an empty URL, a URL longer than 2048 characters, or a URL with no
`/status/<digits>` segment makes `update_x_post_metrics` return a failure
and leave the store completely unchanged — no upsert and no ambassador
reassignment happens. -/
theorem c10_invalid_url_rejected :
    ∀ (resolveHandle : String → Option String) (table : List Dashboard.XPostRow)
      (url : String) (m : Dashboard.Metrics) (now : Int) (month : String) (year : Int),
      (url = "" ∨ 2048 < url.length ∨ Dashboard.extractTweetId url = none) →
      (Dashboard.updateXPostMetrics resolveHandle table url m now month year).1.1
          = false ∧
      (Dashboard.updateXPostMetrics resolveHandle table url m now month year).2
          = table := by
  intro rh table url m now month year h
  unfold Dashboard.updateXPostMetrics
  by_cases hv : url = "" ∨ url.length > 2048
  · rw [if_pos hv]
    exact ⟨rfl, rfl⟩
  · rw [if_neg hv]
    rcases h with h | h | h
    · exact absurd (Or.inl h) hv
    · exact absurd (Or.inr h) hv
    · rw [h]
      exact ⟨rfl, rfl⟩

/-- Witness for C10 at a concrete input: a URL without a `/status/`
segment is rejected and the store stays empty. -/
theorem c10_invalid_url_rejected_witness :
    (Dashboard.updateXPostMetrics (fun _ => none) [] "https://x.com/abc"
        ⟨none, none, none, none, none, none, none⟩ 0 "Jan" 2025).1.1 = false ∧
    (Dashboard.updateXPostMetrics (fun _ => none) [] "https://x.com/abc"
        ⟨none, none, none, none, none, none, none⟩ 0 "Jan" 2025).2 = [] :=
  c10_invalid_url_rejected (fun _ => none) [] "https://x.com/abc"
    ⟨none, none, none, none, none, none, none⟩ 0 "Jan" 2025
    (Or.inr (Or.inr (by decide)))

/-! ## C1 — cache invalidation on ingestion writes -/

/-- C1 counterexample: a successful metrics upsert through
`update_x_post_metrics` (here: tweet `123` of `https://x.com/u/status/123`)
does not invalidate the aggregate cache — the key `"k"` cached before the
write still hits afterwards (value `7`, age 2 s < ttl 300 s), while the
claim requires every previously-cached key to miss. -/
theorem c1_counterexample :
    ((Dashboard.sysUpdateXPostMetrics (fun _ => none)
        ⟨⟨[], []⟩, Dashboard.setCache ([] : Dashboard.Cache Nat) "k" 7 0⟩
        "https://x.com/u/status/123"
        ⟨some 10, some 1, some 2, some 3, none, none, none⟩ 1 "Jan" 2025).1.1
      = true) ∧
    ((Dashboard.getCache
        (Dashboard.sysUpdateXPostMetrics (fun _ => none)
          ⟨⟨[], []⟩, Dashboard.setCache ([] : Dashboard.Cache Nat) "k" 7 0⟩
          "https://x.com/u/status/123"
          ⟨some 10, some 1, some 2, some 3, none, none, none⟩ 1 "Jan" 2025).2.cache
        "k" 2 300).1 = some 7) := by
  decide

/-- C1 (amended): `add_content` invalidates the entire aggregate cache on
every successful upsert — the cache becomes empty, so a subsequent get for
any key misses — whereas the metrics-update ingestion path
(`update_x_post_metrics`, reached from the scheduler and the Discord bot
through `AmbassadorService`) performs its upsert without touching the
cache. -/
theorem c1_invalidation :
    (∀ (α : Type) (db : Dashboard.DB) (cache : Dashboard.Cache α)
        (amb url : String) (now : Int) (month : String) (year : Int),
      (Dashboard.addContent db cache amb url now month year).1.1 = true →
      (Dashboard.addContent db cache amb url now month year).2.2 = [] ∧
      ∀ (k : String) (tNow ttl : Int),
        (Dashboard.getCache
          (Dashboard.addContent db cache amb url now month year).2.2 k tNow ttl).1
          = none) ∧
    (∀ (α : Type) (resolveHandle : String → Option String)
        (sys : Dashboard.SysState α) (url : String) (m : Dashboard.Metrics)
        (now : Int) (month : String) (year : Int),
      (Dashboard.sysUpdateXPostMetrics resolveHandle sys url m now month year).2.cache
        = sys.cache) := by
  constructor
  · intro α db cache amb url now month year hs
    have hempty : (Dashboard.addContent db cache amb url now month year).2.2 = [] := by
      revert hs
      unfold Dashboard.addContent
      split
      · intro hs
        exact absurd hs (by simp)
      · split
        · intro _
          rfl
        · split
          · intro _
            rfl
          · intro hs
            exact absurd hs (by simp)
    refine ⟨hempty, fun k tNow ttl => ?_⟩
    rw [hempty]
    rfl
  · intro α rh sys url m now month year
    rfl

/-- Witness for C1 (amended): a successful X submission empties a
non-empty cache. -/
theorem c1_invalidation_witness :
    (Dashboard.addContent ⟨[], []⟩ ([("k", 7, 0)] : Dashboard.Cache Nat) "A"
        "https://x.com/u/status/123" 1 "Jan" 2025).2.2 = [] :=
  (c1_invalidation.1 Nat ⟨[], []⟩ [("k", 7, 0)] "A"
    "https://x.com/u/status/123" 1 "Jan" 2025 (by decide)).1
